import Mathlib

/-!
Verification of the conversational turn-taking engine.

Shallow embedding of the server components relevant to the checked
claims: the linguistic analyzer, the turn detector, the backchannel
trigger detector, the backchannel timing controller, the conversation
manager, the VAD processor state machine, the transcription
coordinator deduplication, and the response coordinator turn-end
flow.

Python floats are modelled as exact rationals (`ℚ`), Python ints as
`ℕ`/`ℤ`, `datetime` values as rational second timestamps supplied as an
explicit `now` argument, and `None` as `Option.none`.  `float(\x27inf\x27)`
is modelled by a dedicated `ElapsedTime.infty` value whose comparison
with any finite bound is `false`, exactly as IEEE `inf < x` is.
-/

/-! ## Python string primitives over `List Char`

`str.split()` (no argument) splits on runs of whitespace and never
yields empty words; `str.strip()` drops whitespace at both ends;
`str.lower()` lowercases each character; `str.rstrip(chars)` drops the
given trailing characters. -/

abbrev Word := List Char

def splitWsGo : List Char → List Char → List Word
  | [], acc => if acc = [] then [] else [acc.reverse]
  | c :: rest, acc =>
    if c.isWhitespace then
      if acc = [] then splitWsGo rest [] else acc.reverse :: splitWsGo rest []
    else
      splitWsGo rest (c :: acc)

/-- Python `text.split()`: whitespace-delimited words, empties dropped. -/
def splitWs (cs : List Char) : List Word := splitWsGo cs []

/-- Python `text.lower()` (ASCII case, which covers all source inputs). -/
def pyLower (cs : List Char) : List Char := cs.map Char.toLower

/-- Python `text.strip()`. -/
def pyStrip (cs : List Char) : List Char :=
  ((cs.dropWhile Char.isWhitespace).reverse.dropWhile Char.isWhitespace).reverse

/-- Python `text.rstrip()` (whitespace only). -/
def rstripWs (cs : List Char) : List Char :=
  (cs.reverse.dropWhile Char.isWhitespace).reverse

/-- Python `word.rstrip` over the punctuation set used by the analyzer. -/
def rstripPunct (w : Word) : Word :=
  (w.reverse.dropWhile (fun c => ['.', ',', '!', '?', ';', ':'].contains c)).reverse

/-- Python `needle in haystack` prefix test helper. -/
def startsWithCL : List Char → List Char → Bool
  | _, [] => true
  | [], _ :: _ => false
  | c :: cs, d :: ds => c = d && startsWithCL cs ds

/-- Python `needle in haystack` substring containment. -/
def containsSub : List Char → List Char → Bool
  | [], n => startsWithCL [] n
  | c :: t, n => startsWithCL (c :: t) n || containsSub t n

/-- Python `" ".join(words)`. -/
def joinWords (ws : List Word) : String :=
  String.mk (List.intercalate [' '] ws)

/-! ## Configuration defaults (`server/config.py`) -/

namespace config

def short_pause_ms : ℕ := 400
def medium_pause_ms : ℕ := 1000
def long_pause_ms : ℕ := 1500
def turn_end_score_threshold : ℕ := 65
def silence_weight : ℚ := 0.4
def linguistic_weight : ℚ := 0.35
def context_weight : ℚ := 0.25
def backchannel_base_probability : ℚ := 0.4
def backchannel_min_interval_s : ℚ := 5.0
def vad_threshold : ℚ := 0.5
def vad_min_silence_duration_ms : ℚ := 300

def continuation_words : List Word :=
  (["and", "so", "but", "um", "uh", "like", "or", "because",
    "then", "well", "actually", "basically", "you know"].map String.data)

def emotion_keywords : List Word :=
  (["amazing", "terrible", "wonderful", "awful", "excited",
    "frustrated", "happy", "sad", "angry", "love", "hate"].map String.data)

def explicit_prompts : List Word :=
  (["you know?", "right?", "don\x27t you think?", "isn\x27t it?",
    "you see?", "understand?", "make sense?"].map String.data)

end config

/-! ## Conversation manager data model (`server/conversation_manager.py`) -/

inductive ConversationState
  | IDLE
  | USER_SPEAKING
  | EVALUATING_PAUSE
  | AGENT_THINKING
  | AGENT_SPEAKING
deriving DecidableEq, Repr, BEq

structure TranscriptSegment where
  text : String
  timestamp : ℚ
  is_final : Bool
  speaker : String
deriving DecidableEq, Repr

structure BackchannelEvent where
  btype : String
  timestamp : ℚ
  was_successful : Bool
deriving DecidableEq, Repr

/-- The `ConversationContext` dataclass.  `partial_transcript` is named
`draft_transcript` here. -/
structure ConversationContext where
  state : ConversationState := ConversationState.IDLE
  current_user_speech_start : Option ℚ := none
  current_silence_start : Option ℚ := none
  current_silence_duration : ℚ := 0
  draft_transcript : String := ""
  transcript_segments : List TranscriptSegment := []
  last_backchannel_time : Option ℚ := none
  backchannel_history : List BackchannelEvent := []
  user_avg_pause_duration : ℚ := 0.8
  user_sentence_count_current_turn : ℕ := 0
  user_word_count_current_turn : ℕ := 0
  current_agent_response : String := ""
deriving Repr

/-- Model of Python `float` elapsed times where `float(\x27inf\x27)` can occur. -/
inductive ElapsedTime
  | fin (seconds : ℚ)
  | infty
deriving DecidableEq, Repr

/-- IEEE comparison `e < m` for a possibly-infinite elapsed time:
`inf < m` is `False` for every finite `m`. -/
def ElapsedTime.ltQ : ElapsedTime → ℚ → Bool
  | .fin s, m => decide (s < m)
  | .infty, _ => false

def get_user_speaking_duration (ctx : ConversationContext) (now : ℚ) : ℚ :=
  match ctx.current_user_speech_start with
  | some t => now - t
  | none => 0

def get_time_since_last_backchannel (ctx : ConversationContext) (now : ℚ) :
    ElapsedTime :=
  match ctx.last_backchannel_time with
  | some t => .fin (now - t)
  | none => .infty

/-! ## Events emitted on the bus (payload fields as used by the claims) -/

inductive Ev
  | stateChanged (old_state new_state : ConversationState)
  | turnEvaluation (silence_score linguistic_score : ℕ) (context_score : ℤ)
      (final_score : ℚ) (silence_duration_ms : ℚ) (transcript : String)
  | turnEnded (final_score : ℚ) (silence_score linguistic_score : ℕ)
      (context_score : ℤ) (transcript : String) (silence_duration_ms : ℚ)
  | backchannelTriggered (backchannel_type : Option String) (proceed_to_play : Bool)
  | backchannelAborted (backchannel_type : Option String) (reason : String)
  | speechStartedEv (resumed : Bool)
  | speechContinuing (duration_ms : ℚ)
  | silenceEdge (speech_duration_ms : ℚ)
  | silenceHeartbeat (silence_duration_ms : ℚ)
  | responseGenerating (user_utterance : String)
  | responseStarted (text : String)
  | responseEnded (text : String)
deriving DecidableEq, Repr, BEq

/-! ## Conversation manager mutators -/

/-- Embeds `ConversationManager.update_state`: sets the state unconditionally and
emits `STATE_CHANGED(old, new)`.  There is no legality check in the source. -/
def update_state (ctx : ConversationContext) (new_state : ConversationState) :
    ConversationContext × Ev :=
  ({ ctx with state := new_state }, Ev.stateChanged ctx.state new_state)

/-- Embeds `ConversationManager.add_transcript`. -/
def add_transcript (ctx : ConversationContext) (text : String)
    (is_final : Bool) (speaker : String) (now : ℚ) : ConversationContext :=
  let seg : TranscriptSegment := ⟨text, now, is_final, speaker⟩
  let ctx := { ctx with transcript_segments := ctx.transcript_segments ++ [seg] }
  if speaker = "user" then
    if is_final then
      let words := splitWs text.data
      let sentences :=
        text.data.count '.' + text.data.count '?' + text.data.count '!'
      { ctx with
        draft_transcript := ""
        user_word_count_current_turn :=
          ctx.user_word_count_current_turn + words.length
        user_sentence_count_current_turn :=
          ctx.user_sentence_count_current_turn + max 1 sentences }
    else
      { ctx with draft_transcript := text }
  else
    ctx

/-- Embeds `ConversationManager.record_backchannel`. -/
def record_backchannel (ctx : ConversationContext) (backchannel_type : String)
    (was_successful : Bool) (now : ℚ) : ConversationContext :=
  { ctx with
    backchannel_history :=
      ctx.backchannel_history ++ [⟨backchannel_type, now, was_successful⟩]
    last_backchannel_time := some now }

/-- Embeds `ConversationManager.reset_turn`: clears the turn-local fields.
It does not touch `state`. -/
def reset_turn (ctx : ConversationContext) : ConversationContext :=
  { ctx with
    current_user_speech_start := none
    current_silence_start := none
    current_silence_duration := 0
    draft_transcript := ""
    user_sentence_count_current_turn := 0
    user_word_count_current_turn := 0 }

/-- Helper for `get_user_transcript_current_turn`: walks the reversed
segment list, stopping at the first agent segment, collecting final user
segments in chronological order. -/
def collectUserSegs : List TranscriptSegment → List String
  | [] => []
  | s :: rest =>
    if s.speaker = "agent" then []
    else collectUserSegs rest ++ (if s.speaker = "user" && s.is_final then [s.text] else [])

/-- Embeds `ConversationManager.get_user_transcript_current_turn`. -/
def get_user_transcript_current_turn (segs : List TranscriptSegment) : String :=
  String.intercalate " " (collectUserSegs segs.reverse)

/-! ## Spec-side definition: the legal-transition relation

Modelled from the spec: the legal
transitions as listed in the data-model section.  The source has no
corresponding check; this definition exists only to state claim C4. -/
def legal_transition : ConversationState → ConversationState → Bool
  | .IDLE, .USER_SPEAKING => true
  | .USER_SPEAKING, .EVALUATING_PAUSE => true
  | .USER_SPEAKING, .AGENT_THINKING => true
  | .EVALUATING_PAUSE, .AGENT_THINKING => true
  | .EVALUATING_PAUSE, .USER_SPEAKING => true
  | .AGENT_THINKING, .AGENT_SPEAKING => true
  | .AGENT_SPEAKING, .IDLE => true
  | _, _ => false

/-! ## Linguistic analyzer (`server/linguistic_analyzer.py`) -/

structure LinguisticAnalysis where
  completeness_score : ℕ
  is_question : Bool
  is_complete : Bool
  word_count : ℕ
  sentence_count : ℕ
  ends_with_continuation : Bool
  ends_with_punctuation : Bool
deriving DecidableEq, Repr

namespace LinguisticAnalyzer

def question_words : List Word :=
  (["what", "when", "where", "who", "whom", "whose", "why", "which", "how",
    "is", "are", "was", "were", "do", "does", "did", "can", "could",
    "will", "would", "should", "shall", "may", "might", "must"].map String.data)

def common_verbs : List Word :=
  (["is", "are", "was", "were", "am", "be", "been", "being",
    "have", "has", "had", "do", "does", "did",
    "can", "could", "will", "would", "should", "shall",
    "may", "might", "must",
    "go", "goes", "went", "going",
    "get", "gets", "got", "getting",
    "make", "makes", "made", "making",
    "know", "knows", "knew", "knowing",
    "think", "thinks", "thought", "thinking",
    "see", "sees", "saw", "seeing",
    "want", "wants", "wanted", "wanting",
    "need", "needs", "needed", "needing"].map String.data)

/-- Embeds `ends_with_punctuation`: strip, then test the last character. -/
def ends_with_punctuation (cs : List Char) : Bool :=
  match (pyStrip cs).getLast? with
  | some c => ['.', '?', '!'].contains c
  | none => false

/-- Embeds `last_word_is_continuation`: strip, lowercase, split; strip trailing
punctuation from the last word and look it up in the continuation set. -/
def last_word_is_continuation (cs : List Char) : Bool :=
  match (splitWs (pyLower (pyStrip cs))).getLast? with
  | some w => config.continuation_words.contains (rstripPunct w)
  | none => false

/-- Embeds `is_question`: terminal question mark or leading question word. -/
def is_question (cs : List Char) : Bool :=
  let stripped := pyStrip cs
  (match stripped.getLast? with
   | some c => c = '?'
   | none => false) ||
  (match (splitWs (pyLower stripped)).head? with
   | some w => question_words.contains w
   | none => false)

/-- Embeds `count_sentences`: punctuation marks, with a 1-sentence fallback. -/
def count_sentences (cs : List Char) : ℕ :=
  let count := cs.count '.' + cs.count '?' + cs.count '!'
  if count = 0 && pyStrip cs ≠ [] then 1 else count

/-- Embeds `has_subject_and_verb` heuristic. -/
def has_subject_and_verb (cs : List Char) : Bool :=
  let words := splitWs (pyLower cs)
  if words.length < 2 then false
  else if words.any (fun w => common_verbs.contains (rstripPunct w)) then true
  else if words.length ≥ 3 then true
  else false

/-- Embeds `_calculate_score`. -/
def calculateScore (ends_with_punct ends_with_cont is_quest : Bool)
    (sentence_count : ℕ) (has_subj_verb : Bool) : ℕ :=
  if ends_with_cont then 30
  else
    let score := 0
    let score := if ends_with_punct then score + 40 else score
    let score := if has_subj_verb then score + 20 else score
    let score := if sentence_count ≥ 1 && ends_with_punct then score + 30 else score
    let score := if is_quest && ends_with_punct then score + 10 else score
    min score 100

/-- Embeds `analyze_completeness`.  The Python guard `not text or not
text.strip()` holds exactly when the stripped text is empty. -/
def analyze_completeness (text : String) : LinguisticAnalysis :=
  if pyStrip text.data = [] then
    ⟨0, false, false, 0, 0, false, false⟩
  else
    let stripped := pyStrip text.data
    let words := splitWs stripped
    let word_count := words.length
    if word_count < 3 then
      ⟨20, is_question stripped, false, word_count, 0, false,
       ends_with_punctuation stripped⟩
    else
      let ends_with_punct := ends_with_punctuation stripped
      let ends_with_cont := last_word_is_continuation stripped
      let is_quest := is_question stripped
      let sent_count := count_sentences stripped
      let has_subj_verb := has_subject_and_verb stripped
      let score := calculateScore ends_with_punct ends_with_cont is_quest
        sent_count has_subj_verb
      ⟨score, is_quest, score ≥ 70, word_count, sent_count,
       ends_with_cont, ends_with_punct⟩

end LinguisticAnalyzer

/-! ## Turn detector (`server/turn_detector.py`) -/

structure TurnScores where
  silence_score : ℕ
  linguistic_score : ℕ
  context_score : ℤ
  final_score : ℚ
  silence_duration_ms : ℚ
  transcript : String
deriving DecidableEq, Repr

/-- Embeds `TurnDetector.calculate_silence_score`. -/
def calculate_silence_score (duration_ms : ℚ) : ℕ :=
  if duration_ms < (config.short_pause_ms : ℚ) then 10
  else if duration_ms < 700 then 20
  else if duration_ms < (config.medium_pause_ms : ℚ) then 50
  else if duration_ms < (config.long_pause_ms : ℚ) then 80
  else 100

/-- Embeds `TurnDetector.calculate_linguistic_score`. -/
def calculate_linguistic_score (segs : List TranscriptSegment) : ℕ :=
  let transcript := get_user_transcript_current_turn segs
  if transcript = "" then 0
  else (LinguisticAnalyzer.analyze_completeness transcript).completeness_score

/-- Embeds `TurnDetector.calculate_context_score`. -/
def calculate_context_score (ctx : ConversationContext) (now : ℚ) : ℤ :=
  let speaking_duration := get_user_speaking_duration ctx now
  let score : ℤ := 50
  let score :=
    if speaking_duration > 15 then score + 20
    else if speaking_duration < 2 then score - 10
    else score
  let score := if ctx.user_word_count_current_turn < 5 then score - 20 else score
  let score := if ctx.user_sentence_count_current_turn ≥ 2 then score + 10 else score
  max 0 (min 100 score)

/-- Embeds `TurnDetector.make_turn_decision`. -/
def make_turn_decision (ctx : ConversationContext) (scores : TurnScores) :
    ConversationContext × List Ev :=
  if scores.final_score > (config.turn_end_score_threshold : ℚ) then
    let p := update_state ctx ConversationState.AGENT_THINKING
    (p.1, [p.2,
      Ev.turnEnded scores.final_score scores.silence_score
        scores.linguistic_score scores.context_score scores.transcript
        scores.silence_duration_ms])
  else if 40 < scores.final_score ∧
      scores.final_score ≤ (config.turn_end_score_threshold : ℚ) then
    let p := update_state ctx ConversationState.EVALUATING_PAUSE
    (p.1, [p.2])
  else
    (ctx, [])

/-- Embeds `TurnDetector.on_silence_detected`: the full evaluation performed on a
SILENCE_DETECTED event, returning the updated context and the emitted
events in emission order.  The silence-duration update happens first (as
in the source); the score getters read only fields it does not touch, so
they are applied to `ctx` directly. -/
def on_silence_detected (ctx : ConversationContext) (now : ℚ)
    (silence_duration_ms : ℚ) : ConversationContext × List Ev :=
  if ctx.state ≠ ConversationState.USER_SPEAKING then (ctx, [])
  else
    let ctx1 := { ctx with current_silence_duration := silence_duration_ms / 1000 }
    let silence_score := calculate_silence_score silence_duration_ms
    let linguistic_score := calculate_linguistic_score ctx.transcript_segments
    let context_score := calculate_context_score ctx now
    let final_score : ℚ :=
      config.silence_weight * silence_score +
      config.linguistic_weight * linguistic_score +
      config.context_weight * context_score
    let transcript := get_user_transcript_current_turn ctx.transcript_segments
    let scores : TurnScores :=
      ⟨silence_score, linguistic_score, context_score, final_score,
       silence_duration_ms, transcript⟩
    let p := make_turn_decision ctx1 scores
    (p.1, Ev.turnEvaluation silence_score linguistic_score context_score
      final_score silence_duration_ms transcript :: p.2)

/-- The fused final score computed by the turn detector on a silence
event: configured weights times the three signal scores.  With the
configured defaults this is exactly the specified 0.40·silence +
0.35·linguistic + 0.25·context (see the first conjunct of the C1
theorem). -/
def specFinalScore (ctx : ConversationContext) (now : ℚ) (sms : ℚ) : ℚ :=
  config.silence_weight * (calculate_silence_score sms : ℚ) +
  config.linguistic_weight * (calculate_linguistic_score ctx.transcript_segments : ℚ) +
  config.context_weight * (calculate_context_score ctx now : ℚ)

/-! ## Backchannel trigger detector (`server/backchannel_trigger.py`) -/

/-- Embeds `detect_emotion_keywords`: word-set intersection with the emotion
keyword list (no punctuation stripping in the source). -/
def detect_emotion_keywords (cs : List Char) : Bool :=
  (splitWs (pyLower cs)).any (fun w => config.emotion_keywords.contains w)

/-- Embeds `detect_explicit_prompts `: substring containment of any prompt phrase. -/
def detect_explicit_prompts (cs : List Char) : Bool :=
  config.explicit_prompts.any (fun p => containsSub (pyLower cs) p)

/-- Python `transcript.rstrip().endswith((chr(46), chr(33), chr(63)))`:
terminal punctuation after trailing whitespace is removed. -/
def ends_terminal_after_rstrip (cs : List Char) : Bool :=
  match (rstripWs cs).getLast? with
  | some c => ['.', '!', '?'].contains c
  | none => false

/-- Embeds `BackchannelTriggerDetector.check_trigger_conditions`.  The minimum
interval is the constructor-injected configuration value, passed
explicitly here. -/
def check_trigger_conditions (ctx : ConversationContext) (now : ℚ)
    (silence_duration_ms : ℚ) (min_interval_s : ℚ) : Bool :=
  if ctx.state ≠ ConversationState.USER_SPEAKING then false
  else if ¬ (300 ≤ silence_duration_ms ∧ silence_duration_ms ≤ 700) then false
  else if ElapsedTime.ltQ (get_time_since_last_backchannel ctx now) min_interval_s
    then false
  else if ctx.user_sentence_count_current_turn < 2 then false
  else
    let transcript := get_user_transcript_current_turn ctx.transcript_segments
    if transcript = "" ∨ (splitWs transcript.data).length < 5 then false
    else true

/-- Embeds `BackchannelTriggerDetector.calculate_probability`. -/
def calculate_probability (ctx : ConversationContext) (now : ℚ) : ℚ :=
  let prob := config.backchannel_base_probability
  let transcript :=
    pyLower (get_user_transcript_current_turn ctx.transcript_segments).data
  let prob := if detect_emotion_keywords transcript then prob + 0.3 else prob
  let prob := if detect_explicit_prompts transcript then prob + 0.5 else prob
  let prob :=
    if ElapsedTime.ltQ (get_time_since_last_backchannel ctx now) 8 then prob - 0.2
    else prob
  let prob := if get_user_speaking_duration ctx now < 3 then prob - 0.3 else prob
  let prob := if ends_terminal_after_rstrip transcript then prob + 0.2 else prob
  max 0 (min 1 prob)

/-! ## Backchannel timing controller (`server/backchannel_timing.py`)

The asyncio timer tasks are modelled explicitly: `live` is the list of
identifiers of timer tasks that have been created and neither cancelled
nor completed; `safe_zone_task` is the identifier stored in the
controller field (the most recently created timer).  Creating a task
appends a fresh identifier; cancelling removes the stored identifier
from `live`; the expiry of a live task runs the countdown body. -/

structure TimingState where
  pending_backchannel : Option String
  is_waiting : Bool
  safe_zone_task : Option ℕ
  live : List ℕ
  nextId : ℕ
deriving DecidableEq, Repr

def timingInit : TimingState := ⟨none, false, none, [], 0⟩

/-- Embeds `start_safe_zone_timer`: overwrites the pending kind and the stored
task with a freshly created timer.  The previously stored task is NOT
cancelled: it stays live. -/
def start_safe_zone_timer (s : TimingState) (backchannel_type : String) :
    TimingState :=
  { s with
    pending_backchannel := some backchannel_type
    is_waiting := true
    safe_zone_task := some s.nextId
    live := s.live ++ [s.nextId]
    nextId := s.nextId + 1 }

/-- Embeds `on_backchannel_triggered`: Python `if not backchannel_type: return`
drops a missing or empty kind, otherwise starts the safe-zone timer. -/
def on_backchannel_triggered (s : TimingState) (backchannel_type : Option String) :
    TimingState :=
  match backchannel_type with
  | none => s
  | some b => if b = "" then s else start_safe_zone_timer s b

/-- Expiry of the timer task `id`: if the task is still live, its
countdown body runs — when `is_waiting` and a pending kind exist it
proceeds to playback, emitting the playback-phase BACKCHANNEL_TRIGGERED
and clearing the pending state. -/
def fire_timer (s : TimingState) (id : ℕ) : TimingState × List Ev :=
  if id ∈ s.live then
    let s1 := { s with live := s.live.erase id }
    if s1.is_waiting && s1.pending_backchannel.isSome then
      ({ s1 with
          pending_backchannel := none
          is_waiting := false
          safe_zone_task := none },
       [Ev.backchannelTriggered s1.pending_backchannel true])
    else (s1, [])
  else (s, [])

/-- Embeds `abort_backchannel`: cancels the stored task and clears the state. -/
def abort_backchannel (s : TimingState) : TimingState × List Ev :=
  let live1 := match s.safe_zone_task with
    | some id => s.live.erase id
    | none => s.live
  ({ pending_backchannel := none, is_waiting := false, safe_zone_task := none,
     live := live1, nextId := s.nextId },
   [Ev.backchannelAborted s.pending_backchannel "user_resumed_speaking"])

/-- Embeds `on_speech_started`. -/
def timing_on_speech_started (s : TimingState) : TimingState × List Ev :=
  if s.is_waiting && s.pending_backchannel.isSome then abort_backchannel s
  else (s, [])

/-! ## VAD processor state machine (`server/vad_processor.py`) -/

inductive VADState
  | NOT_SPEAKING
  | SPEAKING
  | SILENCE_AFTER_SPEECH
deriving DecidableEq, Repr

structure VadProcessor where
  current_state : VADState
  speech_start_time : Option ℚ
  silence_start_time : Option ℚ
  consecutive_speech_chunks : ℕ
  consecutive_silence_chunks : ℕ
deriving DecidableEq, Repr

def vadInit : VadProcessor :=
  ⟨VADState.NOT_SPEAKING, none, none, 0, 0⟩

def speech_start_threshold : ℕ := 3
def speech_end_threshold : ℕ := 5

def get_silence_duration (s : VadProcessor) (now : ℚ) : ℚ :=
  match s.silence_start_time with
  | some t => (now - t) * 1000
  | none => 0

def get_speech_duration (s : VadProcessor) (now : ℚ) : ℚ :=
  match s.speech_start_time with
  | some t => (now - t) * 1000
  | none => 0

/-- Embeds `VADProcessor.update_state`: one 30 ms chunk with probability `p`
observed at time `now`. -/
def vad_update_state (s : VadProcessor) (now : ℚ) (p : ℚ) :
    VadProcessor × List Ev :=
  let is_speech := p > config.vad_threshold
  let s :=
    if is_speech then
      { s with
          consecutive_speech_chunks := s.consecutive_speech_chunks + 1
          consecutive_silence_chunks := 0 }
    else
      { s with
          consecutive_silence_chunks := s.consecutive_silence_chunks + 1
          consecutive_speech_chunks := 0 }
  match s.current_state with
  | VADState.NOT_SPEAKING =>
    if s.consecutive_speech_chunks ≥ speech_start_threshold then
      ({ s with
          current_state := VADState.SPEAKING
          speech_start_time := some now
          silence_start_time := none },
       [Ev.speechStartedEv false])
    else (s, [])
  | VADState.SPEAKING =>
    if is_speech then (s, [Ev.speechContinuing (get_speech_duration s now)])
    else if s.consecutive_silence_chunks ≥ speech_end_threshold then
      ({ s with
          current_state := VADState.SILENCE_AFTER_SPEECH
          silence_start_time := some now },
       [Ev.silenceEdge (get_speech_duration s now)])
    else (s, [])
  | VADState.SILENCE_AFTER_SPEECH =>
    if s.consecutive_speech_chunks ≥ speech_start_threshold then
      ({ s with
          current_state := VADState.SPEAKING
          speech_start_time := some now
          silence_start_time := none },
       [Ev.speechStartedEv true])
    else
      let silence_duration := get_silence_duration s now
      if silence_duration ≥ config.vad_min_silence_duration_ms then
        (s, [Ev.silenceHeartbeat silence_duration])
      else (s, [])

/-- Embeds `VADProcessor.reset`. -/
def vad_reset (_s : VadProcessor) : VadProcessor := vadInit

/-- An observable input to the VAD processor: a processed chunk (with its
arrival time and model probability) or a reset. -/
inductive VadAction
  | chunk (now : ℚ) (p : ℚ)
  | reset
deriving Repr

def vadStep (s : VadProcessor) : VadAction → VadProcessor
  | VadAction.chunk now p => (vad_update_state s now p).1
  | VadAction.reset => vad_reset s

/-! ## Transcription deduplication (`server/transcription_coordinator.py`) -/

/-- Python `recent[-2 :]`: the last two elements in order. -/
def lastTwo (l : List String) : List String :=
  match l.reverse with
  | [] => []
  | [a] => [a]
  | a :: b :: _ => [b, a]

/-- Python `lst[-3 :]` (after an append the source pops the front once
when the length exceeds 3, which keeps exactly the last three). -/
def lastThree (l : List String) : List String :=
  (l.reverse.take 3).reverse

/-- The word-position common prefix length computed by the dedup loop. -/
def commonPrefixLen : List Word → List Word → ℕ
  | a :: as, b :: bs => if a = b then commonPrefixLen as bs + 1 else 0
  | _, _ => 0

/-- The dedup comparison loop over the two most recent transcripts, in
order: the first transcript whose common word prefix covers strictly
more than 80% of the words of the new chunk has that prefix dropped; the
loop breaks.  `5 * overlap > 4 * length` is the exact form of
`overlap / length > 0.8` for positive `length`. -/
def dedupLoop : List String → List Word → List Word
  | [], new_words => new_words
  | recent :: rest, new_words =>
    let recent_words := splitWs (pyLower recent.data)
    let overlap_count := commonPrefixLen new_words recent_words
    if 5 * overlap_count > 4 * new_words.length then new_words.drop overlap_count
    else dedupLoop rest new_words

/-- Embeds `TranscriptionCoordinator.deduplicate`: takes the current
`recent_transcripts` list and the new chunk text, returns the
deduplicated text together with the updated list.  `none` models the
`ZeroDivisionError` the source raises when the new chunk has no words
while earlier transcripts exist. -/
def deduplicate (recent_transcripts : List String) (new_text : String) :
    Option (String × List String) :=
  if recent_transcripts = [] then some (new_text, [new_text])
  else
    let new_words := splitWs (pyLower new_text.data)
    if new_words.length = 0 then none
    else
      let remaining := dedupLoop (lastTwo recent_transcripts) new_words
      let updated := lastThree (recent_transcripts ++ [new_text])
      some (joinWords remaining, updated)

/-! ## Response coordinator (`server/response_coordinator.py`)

The LLM and TTS collaborators are external; their results are passed in
as parameters (`llm_response` is the concatenated streamed text,
`tts_audio_samples` is `none` on synthesis failure). -/

def generate_and_play_response (ctx : ConversationContext)
    (user_utterance llm_response : String) (tts_audio_samples : Option ℕ)
    (now : ℚ) : ConversationContext × List Ev :=
  let p1 := update_state ctx ConversationState.AGENT_THINKING
  let evs := [p1.2, Ev.responseGenerating user_utterance]
  if llm_response = "" then
    let p2 := update_state p1.1 ConversationState.IDLE
    (p2.1, evs ++ [p2.2])
  else
    let ctx2 := add_transcript p1.1 llm_response true "agent" now
    match tts_audio_samples with
    | none =>
      let p3 := update_state ctx2 ConversationState.IDLE
      (p3.1, evs ++ [p3.2])
    | some _ =>
      let p3 := update_state ctx2 ConversationState.AGENT_SPEAKING
      let ctx4 := reset_turn p3.1
      let p5 := update_state ctx4 ConversationState.IDLE
      (p5.1, evs ++ [p3.2, Ev.responseStarted llm_response,
        Ev.responseEnded llm_response, p5.2])

/-- Embeds `ResponseCoordinator.on_turn_ended`: skips an empty transcript,
otherwise runs the generation flow. -/
def on_turn_ended (ctx : ConversationContext) (transcript llm_response : String)
    (tts_audio_samples : Option ℕ) (now : ℚ) : ConversationContext × List Ev :=
  if transcript = "" then (ctx, [])
  else generate_and_play_response ctx transcript llm_response tts_audio_samples now

/-! ## Concrete scenario contexts used by witnesses and counterexamples -/

/-- A user turn "What time is it?" that has been speaking for 3 s at the
time of evaluation (the quick-turn scenario of the spec). -/
def quickTurnCtx : ConversationContext :=
  { state := ConversationState.USER_SPEAKING
    current_user_speech_start := some 0
    current_silence_start := some 2
    current_silence_duration := 0
    draft_transcript := ""
    transcript_segments := [⟨"What time is it?", 1, true, "user"⟩]
    last_backchannel_time := none
    backchannel_history := []
    user_avg_pause_duration := 0.8
    user_sentence_count_current_turn := 1
    user_word_count_current_turn := 4
    current_agent_response := "" }

/-- A three-sentence narrative containing the bare emotion keyword
"amazing", ending with a period, with a backchannel recorded at time 0
(so 6 s ago when evaluated at `now = 6`). -/
def storyCtx : ConversationContext :=
  { state := ConversationState.USER_SPEAKING
    current_user_speech_start := some 0
    current_silence_start := some 5
    current_silence_duration := 0.5
    draft_transcript := ""
    transcript_segments :=
      [⟨"I went hiking today. The view was amazing and bright. We had fun.",
        1, true, "user"⟩]
    last_backchannel_time := some 0
    backchannel_history := [⟨"mmhmm", 0, true⟩]
    user_avg_pause_duration := 0.8
    user_sentence_count_current_turn := 3
    user_word_count_current_turn := 13
    current_agent_response := "" }

/-- A context in which no backchannel has ever been recorded. -/
def freshCtx : ConversationContext :=
  { state := ConversationState.USER_SPEAKING
    current_user_speech_start := some 0
    current_silence_start := some 5
    current_silence_duration := 0.5
    draft_transcript := ""
    transcript_segments :=
      [⟨"I went hiking today. The view was amazing and bright. We had fun.",
        1, true, "user"⟩]
    last_backchannel_time := none
    backchannel_history := []
    user_avg_pause_duration := 0.8
    user_sentence_count_current_turn := 3
    user_word_count_current_turn := 13
    current_agent_response := "" }

/-- An idle conversation context. -/
def idleCtx : ConversationContext := {}

/-- A context whose state is AGENT_SPEAKING with populated turn counters. -/
def agentSpeakingCtx : ConversationContext :=
  { state := ConversationState.AGENT_SPEAKING
    current_user_speech_start := some 1
    current_silence_start := some 2
    current_silence_duration := 3
    draft_transcript := "so"
    transcript_segments := [⟨"Hello there friend.", 1, true, "user"⟩]
    last_backchannel_time := none
    backchannel_history := []
    user_avg_pause_duration := 0.8
    user_sentence_count_current_turn := 1
    user_word_count_current_turn := 3
    current_agent_response := "" }

/-- A context already in AGENT_THINKING, as left by the turn detector
just before TURN_ENDED is handled. -/
def thinkingCtx : ConversationContext :=
  { quickTurnCtx with state := ConversationState.AGENT_THINKING }

/-- Detects a STATE_CHANGED event whose old and new states coincide. -/
def isSpuriousStateChange : Ev → Bool
  | Ev.stateChanged o n => o == n
  | _ => false

/-- The composed turn-end execution: a SILENCE_DETECTED evaluation at
`now = 3` with 1200 ms of silence on `quickTurnCtx`, followed by the
response coordinator handling the resulting TURN_ENDED event. -/
def turnEndRunEvents : List Ev :=
  let p1 := on_silence_detected quickTurnCtx 3 1200
  let p2 := on_turn_ended p1.1 (get_user_transcript_current_turn
    quickTurnCtx.transcript_segments) "It is noon." (some 16000) 4
  p1.2 ++ p2.2

/-! ## Claim C4 — update_state and illegal transitions -/

/-- C4 counterexample: from IDLE, requesting AGENT_SPEAKING is not a
legal transition, yet `update_state` applies it and changes the state —
it is not a no-op, so the state machine does enter an illegal state. -/
theorem c4_counterexample :
    legal_transition ConversationState.IDLE ConversationState.AGENT_SPEAKING
        = false ∧
    (update_state idleCtx ConversationState.AGENT_SPEAKING).1.state
        = ConversationState.AGENT_SPEAKING ∧
    (update_state idleCtx ConversationState.AGENT_SPEAKING).1.state
        ≠ idleCtx.state := by
  refine ⟨rfl, rfl, ?_⟩
  decide

/-- C4 (amended): `update_state` performs every requested transition
unconditionally — it sets the state to the requested value and emits
STATE_CHANGED(old, new), with no legality check, so illegal transitions
are applied rather than refused. -/
theorem c4_update_state_unconditional (ctx : ConversationContext)
    (s : ConversationState) :
    (update_state ctx s).1 = { ctx with state := s } ∧
    (update_state ctx s).2 = Ev.stateChanged ctx.state s :=
  ⟨rfl, rfl⟩

/-! ## Claim C7 — reset_turn -/

/-- C7 counterexample: calling `reset_turn` from AGENT_SPEAKING and doing
nothing else leaves the state AGENT_SPEAKING, not IDLE — `reset_turn`
never touches the conversation state. -/
theorem c7_counterexample :
    (reset_turn agentSpeakingCtx).state = ConversationState.AGENT_SPEAKING ∧
    (reset_turn agentSpeakingCtx).state ≠ ConversationState.IDLE ∧
    (reset_turn agentSpeakingCtx).user_word_count_current_turn = 0 := by
  refine ⟨rfl, ?_, rfl⟩
  decide

/-- C7 (amended): `reset_turn` clears all turn-local counters (speech
start, silence start, silence duration, partial transcript, word and
sentence counts) but leaves the conversation state exactly as it was;
the state is IDLE afterwards only if it was IDLE before. -/
theorem c7_reset_turn_clears_counters (ctx : ConversationContext) :
    (reset_turn ctx).state = ctx.state ∧
    (reset_turn ctx).current_user_speech_start = none ∧
    (reset_turn ctx).current_silence_start = none ∧
    (reset_turn ctx).current_silence_duration = 0 ∧
    (reset_turn ctx).draft_transcript = "" ∧
    (reset_turn ctx).user_word_count_current_turn = 0 ∧
    (reset_turn ctx).user_sentence_count_current_turn = 0 :=
  ⟨rfl, rfl, rfl, rfl, rfl, rfl, rfl⟩

/-! ## Claim C10 — first-backchannel minimum-interval gate -/

/-- C10: with no backchannel ever recorded,
`get_time_since_last_backchannel` is positive infinity, the IEEE
comparison `inf < m` is false for every finite bound, and therefore the
trigger-condition check is independent of the configured minimum
interval: the gate always passes on the first backchannel decision. -/
theorem c10_first_backchannel_gate_passes (ctx : ConversationContext)
    (now sms m m' : ℚ) (h : ctx.last_backchannel_time = none) :
    get_time_since_last_backchannel ctx now = ElapsedTime.infty ∧
    ElapsedTime.ltQ (get_time_since_last_backchannel ctx now) m = false ∧
    check_trigger_conditions ctx now sms m
      = check_trigger_conditions ctx now sms m' := by
  have hinf : get_time_since_last_backchannel ctx now = ElapsedTime.infty := by
    simp [get_time_since_last_backchannel, h]
  refine ⟨hinf, ?_, ?_⟩
  · rw [hinf]
    rfl
  · simp only [check_trigger_conditions, hinf, ElapsedTime.ltQ]

/-- C10 witness: a concrete conversation with no recorded backchannel,
evaluated against two wildly different configured intervals. -/
theorem c10_witness :
    get_time_since_last_backchannel freshCtx 6 = ElapsedTime.infty ∧
    ElapsedTime.ltQ (get_time_since_last_backchannel freshCtx 6) 5 = false ∧
    check_trigger_conditions freshCtx 6 500 5
      = check_trigger_conditions freshCtx 6 500 999999 :=
  c10_first_backchannel_gate_passes freshCtx 6 500 5 999999 rfl

/-! ## Claim C6 — superseding a pending backchannel -/

/-- C6 counterexample: trigger "mmhmm", then trigger "okay" while the
first safe-zone timer (task 0) is still pending.  Task 0 is not
cancelled — it is still live — and when it expires it causes a playback
emission, which the claim says can no longer happen. -/
theorem c6_counterexample :
    0 ∈ (on_backchannel_triggered (on_backchannel_triggered timingInit
        (some "mmhmm")) (some "okay")).live ∧
    (fire_timer (on_backchannel_triggered (on_backchannel_triggered timingInit
        (some "mmhmm")) (some "okay")) 0).2
      = [Ev.backchannelTriggered (some "okay") true] := by
  exact ⟨by decide, by decide⟩

/-- C6 (amended): a new BACKCHANNEL_TRIGGERED received while a timer is
pending overwrites the single pending kind (so at most one pending
backchannel value is ever held) and starts a fresh full-length timer,
but it does NOT cancel the superseded timer: any still-live old timer
remains live, and when it expires it still causes a playback emission,
carrying the newly pending kind. -/
theorem c6_supersede_does_not_cancel (s : TimingState) (tid : ℕ) (b : String)
    (hlive : tid ∈ s.live) (hb : b ≠ "") :
    (on_backchannel_triggered s (some b)).pending_backchannel = some b ∧
    tid ∈ (on_backchannel_triggered s (some b)).live ∧
    (fire_timer (on_backchannel_triggered s (some b)) tid).2
      = [Ev.backchannelTriggered (some b) true] := by
  have hlive' : tid ∈ s.live ++ [s.nextId] := List.mem_append_left _ hlive
  refine ⟨?_, ?_, ?_⟩
  · simp [on_backchannel_triggered, if_neg hb, start_safe_zone_timer]
  · simpa [on_backchannel_triggered, if_neg hb, start_safe_zone_timer]
      using hlive'
  · simp [on_backchannel_triggered, if_neg hb, start_safe_zone_timer,
      fire_timer, hlive']

/-- C6 witness: the concrete two-trigger scenario instantiating the
amended statement. -/
theorem c6_witness :
    (on_backchannel_triggered (on_backchannel_triggered timingInit
        (some "mmhmm")) (some "yeah")).pending_backchannel = some "yeah" ∧
    0 ∈ (on_backchannel_triggered (on_backchannel_triggered timingInit
        (some "mmhmm")) (some "yeah")).live ∧
    (fire_timer (on_backchannel_triggered (on_backchannel_triggered timingInit
        (some "mmhmm")) (some "yeah")) 0).2
      = [Ev.backchannelTriggered (some "yeah") true] :=
  c6_supersede_does_not_cancel (on_backchannel_triggered timingInit
    (some "mmhmm")) 0 "yeah" (by decide) (by decide)

/-! ## Turn-detector characterization lemmas -/

lemma on_silence_not_user (ctx : ConversationContext) (now sms : ℚ)
    (h : ctx.state ≠ ConversationState.USER_SPEAKING) :
    on_silence_detected ctx now sms = (ctx, []) := by
  unfold on_silence_detected
  rw [if_pos h]

lemma threshold_cast : ((config.turn_end_score_threshold : ℕ) : ℚ) = 65 := rfl

lemma specFinalScore_unfold (ctx : ConversationContext) (now sms : ℚ) :
    config.silence_weight * ((calculate_silence_score sms) : ℚ) +
    config.linguistic_weight *
      ((calculate_linguistic_score ctx.transcript_segments) : ℚ) +
    config.context_weight * ((calculate_context_score ctx now) : ℚ) =
    specFinalScore ctx now sms := rfl

lemma on_silence_user_high (ctx : ConversationContext) (now sms : ℚ)
    (h : ctx.state = ConversationState.USER_SPEAKING)
    (hf : specFinalScore ctx now sms > 65) :
    on_silence_detected ctx now sms =
      ({ ctx with
          current_silence_duration := sms / 1000
          state := ConversationState.AGENT_THINKING },
       [Ev.turnEvaluation (calculate_silence_score sms)
          (calculate_linguistic_score ctx.transcript_segments)
          (calculate_context_score ctx now) (specFinalScore ctx now sms) sms
          (get_user_transcript_current_turn ctx.transcript_segments),
        Ev.stateChanged ctx.state ConversationState.AGENT_THINKING,
        Ev.turnEnded (specFinalScore ctx now sms) (calculate_silence_score sms)
          (calculate_linguistic_score ctx.transcript_segments)
          (calculate_context_score ctx now)
          (get_user_transcript_current_turn ctx.transcript_segments) sms]) := by
  unfold on_silence_detected
  rw [if_neg (fun hh => hh h)]
  simp only [make_turn_decision, update_state]
  rw [specFinalScore_unfold, threshold_cast, if_pos hf]

lemma on_silence_user_mid (ctx : ConversationContext) (now sms : ℚ)
    (h : ctx.state = ConversationState.USER_SPEAKING)
    (hf1 : 40 < specFinalScore ctx now sms)
    (hf2 : specFinalScore ctx now sms ≤ 65) :
    on_silence_detected ctx now sms =
      ({ ctx with
          current_silence_duration := sms / 1000
          state := ConversationState.EVALUATING_PAUSE },
       [Ev.turnEvaluation (calculate_silence_score sms)
          (calculate_linguistic_score ctx.transcript_segments)
          (calculate_context_score ctx now) (specFinalScore ctx now sms) sms
          (get_user_transcript_current_turn ctx.transcript_segments),
        Ev.stateChanged ctx.state ConversationState.EVALUATING_PAUSE]) := by
  unfold on_silence_detected
  rw [if_neg (fun hh => hh h)]
  simp only [make_turn_decision, update_state]
  rw [specFinalScore_unfold, threshold_cast, if_neg (not_lt.mpr hf2),
    if_pos (And.intro hf1 hf2)]

lemma on_silence_user_low (ctx : ConversationContext) (now sms : ℚ)
    (h : ctx.state = ConversationState.USER_SPEAKING)
    (hf : specFinalScore ctx now sms ≤ 40) :
    on_silence_detected ctx now sms =
      ({ ctx with current_silence_duration := sms / 1000 },
       [Ev.turnEvaluation (calculate_silence_score sms)
          (calculate_linguistic_score ctx.transcript_segments)
          (calculate_context_score ctx now) (specFinalScore ctx now sms) sms
          (get_user_transcript_current_turn ctx.transcript_segments)]) := by
  unfold on_silence_detected
  rw [if_neg (fun hh => hh h)]
  simp only [make_turn_decision, update_state]
  rw [specFinalScore_unfold, threshold_cast,
    if_neg (not_lt.mpr (by linarith : specFinalScore ctx now sms ≤ 65)),
    if_neg (fun hc => absurd hf (not_le.mpr hc.1))]

/-! ## Claim C1 — silence evaluation and turn decision -/

/-- C1: on every SILENCE_DETECTED evaluation in USER_SPEAKING the
decision follows the fused final score 0.40·silence + 0.35·linguistic +
0.25·context: strictly above 65 moves to AGENT_THINKING and emits
TURN_ENDED carrying the transcript, the individual scores and
silence_duration_ms; a score in (40, 65] moves to EVALUATING_PAUSE; a
score of at most 40 leaves the state unchanged; and outside
USER_SPEAKING nothing is evaluated or changed. -/
theorem c1_turn_decision (ctx : ConversationContext) (now sms : ℚ) :
    specFinalScore ctx now sms =
      0.4 * ((calculate_silence_score sms) : ℚ) +
      0.35 * ((calculate_linguistic_score ctx.transcript_segments) : ℚ) +
      0.25 * ((calculate_context_score ctx now) : ℚ) ∧
    (ctx.state ≠ ConversationState.USER_SPEAKING →
      on_silence_detected ctx now sms = (ctx, [])) ∧
    (ctx.state = ConversationState.USER_SPEAKING →
      (specFinalScore ctx now sms > 65 →
        (on_silence_detected ctx now sms).1.state
            = ConversationState.AGENT_THINKING ∧
        Ev.turnEnded (specFinalScore ctx now sms) (calculate_silence_score sms)
            (calculate_linguistic_score ctx.transcript_segments)
            (calculate_context_score ctx now)
            (get_user_transcript_current_turn ctx.transcript_segments) sms
          ∈ (on_silence_detected ctx now sms).2) ∧
      (40 < specFinalScore ctx now sms ∧ specFinalScore ctx now sms ≤ 65 →
        (on_silence_detected ctx now sms).1.state
            = ConversationState.EVALUATING_PAUSE) ∧
      (specFinalScore ctx now sms ≤ 40 →
        (on_silence_detected ctx now sms).1.state
            = ConversationState.USER_SPEAKING)) := by
  refine ⟨rfl, on_silence_not_user ctx now sms, fun h => ⟨?_, ?_, ?_⟩⟩
  · intro hf
    rw [on_silence_user_high ctx now sms h hf]
    exact ⟨rfl, by simp⟩
  · intro hf
    rw [on_silence_user_mid ctx now sms h hf.1 hf.2]
  · intro hf
    rw [on_silence_user_low ctx now sms h hf]
    exact h

/-- C1 witness: the quick-turn scenario, whose fused score is 74.5. -/
theorem c1_witness :
    (on_silence_detected quickTurnCtx 3 1200).1.state
      = ConversationState.AGENT_THINKING := by
  have h80 : calculate_silence_score 1200 = 80 := by
    norm_num [calculate_silence_score, config.short_pause_ms,
      config.medium_pause_ms, config.long_pause_ms]
  have h100 : calculate_linguistic_score quickTurnCtx.transcript_segments
      = 100 := by decide
  have h30 : calculate_context_score quickTurnCtx 3 = 30 := by
    norm_num [calculate_context_score, get_user_speaking_duration, quickTurnCtx,
      min_def, max_def]
  have hf : specFinalScore quickTurnCtx 3 1200 > 65 := by
    rw [← specFinalScore_unfold, h80, h100, h30]
    norm_num [config.silence_weight, config.linguistic_weight,
      config.context_weight]
  exact (((c1_turn_decision quickTurnCtx 3 1200).2.2 rfl).1 hf).1

/-! ## Claim C2 — continuation-word completeness score -/

/-- C2 counterexample: the transcript "and" ends in the continuation word
"and", yet its completeness score is 20, not 30 — the word-count-below-3
branch fires before the continuation check. -/
theorem c2_counterexample :
    LinguisticAnalyzer.last_word_is_continuation (pyStrip "and".data) = true ∧
    (LinguisticAnalyzer.analyze_completeness "and").completeness_score = 20 ∧
    (LinguisticAnalyzer.analyze_completeness "and").completeness_score ≠ 30 := by
  refine ⟨by decide, by decide, by decide⟩

/-- C2 (amended): a transcript of at least 3 words whose last word (after
stripping trailing punctuation, lowercased) is in the continuation set
scores 30; a non-blank transcript of fewer than 3 words scores 20 even
when it ends in a continuation word. -/
theorem c2_continuation_score (t : String) :
    (3 ≤ (splitWs (pyStrip t.data)).length →
      LinguisticAnalyzer.last_word_is_continuation (pyStrip t.data) = true →
      (LinguisticAnalyzer.analyze_completeness t).completeness_score = 30) ∧
    (splitWs (pyStrip t.data) ≠ [] →
      (splitWs (pyStrip t.data)).length < 3 →
      (LinguisticAnalyzer.analyze_completeness t).completeness_score = 20) := by
  constructor
  · intro h3 hc
    have hne : pyStrip t.data ≠ [] := by
      intro he
      rw [he] at h3
      simp [splitWs, splitWsGo] at h3
    have hlt : ¬ (splitWs (pyStrip t.data)).length < 3 := by omega
    simp [LinguisticAnalyzer.analyze_completeness, hne, hlt,
      LinguisticAnalyzer.calculateScore, hc]
  · intro hw hlt
    have hne : pyStrip t.data ≠ [] := by
      intro he
      rw [he] at hw
      simp [splitWs, splitWsGo] at hw
    simp [LinguisticAnalyzer.analyze_completeness, hne, hlt]

/-- C2 witness: "I went and" has 3 words and ends in "and"; it scores 30. -/
theorem c2_witness :
    (LinguisticAnalyzer.analyze_completeness "I went and").completeness_score
      = 30 :=
  (c2_continuation_score "I went and").1 (by decide) (by decide)

/-! ## Claim C3 — backchannel probability with a 6-second-old backchannel -/

/-- Shared evaluation of `calculate_probability` when the emotion gate
and terminal-punctuation gate hold, no explicit prompt is present, the
last backchannel lies within 8 s, and the user has spoken at least 3 s:
the probability is 0.4 + 0.3 − 0.2 + 0.2 = 0.7. -/
lemma calc_prob_recent_emotion_terminal (ctx : ConversationContext) (now : ℚ)
    (hE : detect_emotion_keywords (pyLower (get_user_transcript_current_turn
      ctx.transcript_segments).data) = true)
    (hX : detect_explicit_prompts (pyLower (get_user_transcript_current_turn
      ctx.transcript_segments).data) = false)
    (hT : ends_terminal_after_rstrip (pyLower (get_user_transcript_current_turn
      ctx.transcript_segments).data) = true)
    (hB : ElapsedTime.ltQ (get_time_since_last_backchannel ctx now) 8 = true)
    (hS : ¬ get_user_speaking_duration ctx now < 3) :
    calculate_probability ctx now = 0.7 := by
  simp only [calculate_probability, hE, hX, hT, hB, hS, if_true, if_false,
    Bool.false_eq_true, ite_true, ite_false]
  norm_num [config.backchannel_base_probability, min_def, max_def]

/-- C3 counterexample: all gates pass with the last backchannel 6 s ago,
the transcript holds "amazing" and ends with a period, there is no
explicit prompt, and the user has spoken 6 s — yet the probability is
0.7, not 0.9: the recent-backchannel modifier −0.2 applies at 6 s < 8 s. -/
theorem c3_counterexample :
    check_trigger_conditions storyCtx 6 500 5 = true ∧
    get_time_since_last_backchannel storyCtx 6 = ElapsedTime.fin 6 ∧
    calculate_probability storyCtx 6 = 0.7 ∧
    (0.7 : ℚ) ≠ 0.9 := by
  have h6 : get_time_since_last_backchannel storyCtx 6 = ElapsedTime.fin 6 := by
    simp only [get_time_since_last_backchannel, storyCtx]
    norm_num
  have hC : ¬ (ElapsedTime.ltQ (get_time_since_last_backchannel storyCtx 6) 5
      = true) := by
    rw [h6]
    simp only [ElapsedTime.ltQ, decide_eq_true_eq]
    norm_num
  refine ⟨?_, h6, ?_, by norm_num⟩
  · unfold check_trigger_conditions
    rw [if_neg (by decide :
        ¬ (storyCtx.state ≠ ConversationState.USER_SPEAKING))]
    rw [if_neg (by norm_num : ¬ ¬ ((300:ℚ) ≤ 500 ∧ (500:ℚ) ≤ 700))]
    rw [if_neg hC]
    rw [if_neg (by decide : ¬ (storyCtx.user_sentence_count_current_turn < 2))]
    show (if get_user_transcript_current_turn storyCtx.transcript_segments = ""
        ∨ (splitWs (get_user_transcript_current_turn
            storyCtx.transcript_segments).data).length < 5
      then false else true) = true
    rw [if_neg (by decide :
      ¬ (get_user_transcript_current_turn storyCtx.transcript_segments = ""
        ∨ (splitWs (get_user_transcript_current_turn
            storyCtx.transcript_segments).data).length < 5))]
  · refine calc_prob_recent_emotion_terminal storyCtx 6 (by decide) (by decide)
      (by decide) ?_ ?_
    · rw [h6]
      simp only [ElapsedTime.ltQ, decide_eq_true_eq]
      norm_num
    · simp only [get_user_speaking_duration, storyCtx]
      norm_num

/-- C3 (amended): when the gates pass but the last backchannel is less
than 8 s in the past (as at 6 s), the recent-backchannel modifier −0.2
applies and the probability is 0.4 + 0.3 (emotion) + 0.2 (terminal
punctuation) − 0.2 = 0.7, not 0.9. -/
theorem c3_probability_with_recent_backchannel (ctx : ConversationContext)
    (now : ℚ)
    (hE : detect_emotion_keywords (pyLower (get_user_transcript_current_turn
      ctx.transcript_segments).data) = true)
    (hX : detect_explicit_prompts (pyLower (get_user_transcript_current_turn
      ctx.transcript_segments).data) = false)
    (hT : ends_terminal_after_rstrip (pyLower (get_user_transcript_current_turn
      ctx.transcript_segments).data) = true)
    (hB : ElapsedTime.ltQ (get_time_since_last_backchannel ctx now) 8 = true)
    (hS : ¬ get_user_speaking_duration ctx now < 3) :
    calculate_probability ctx now = 0.7 :=
  calc_prob_recent_emotion_terminal ctx now hE hX hT hB hS

/-- C3 witness: the concrete narrative context evaluated 6 s after the
last backchannel. -/
theorem c3_witness : calculate_probability storyCtx 6 = 0.7 := by
  refine c3_probability_with_recent_backchannel storyCtx 6 (by decide)
    (by decide) (by decide) ?_ ?_
  · simp only [get_time_since_last_backchannel, storyCtx, ElapsedTime.ltQ,
      decide_eq_true_eq]
    norm_num
  · simp only [get_user_speaking_duration, storyCtx]
    norm_num

/-! ## Claim C8 — VAD silence_start_time invariant -/

/-- The invariant: `silence_start_time` is non-null exactly in
SILENCE_AFTER_SPEECH. -/
def vadInv (s : VadProcessor) : Prop :=
  s.silence_start_time.isSome = true ↔
    s.current_state = VADState.SILENCE_AFTER_SPEECH

lemma vadInv_init : vadInv vadInit := by
  simp [vadInv, vadInit]

lemma vadInv_step (s : VadProcessor) (a : VadAction) (h : vadInv s) :
    vadInv (vadStep s a) := by
  cases a with
  | reset => exact vadInv_init
  | chunk now p =>
    obtain ⟨cs, sst, slt, csc, csl⟩ := s
    simp only [vadInv] at h
    cases cs <;>
      by_cases hsp : p > config.vad_threshold <;>
        simp only [vadStep, vad_update_state, hsp, if_true, if_false,
          ite_true, ite_false, vadInv] <;>
        (try split_ifs) <;>
        simp_all

theorem c8_silence_start_iff_silence_state (acts : List VadAction) :
    ((acts.foldl vadStep vadInit).silence_start_time.isSome = true ↔
      (acts.foldl vadStep vadInit).current_state
        = VADState.SILENCE_AFTER_SPEECH) := by
  suffices hgen : ∀ (l : List VadAction) (s : VadProcessor), vadInv s →
      vadInv (l.foldl vadStep s) from hgen acts vadInit vadInv_init
  intro l
  induction l with
  | nil => intro s h; exact h
  | cons a rest ih => intro s h; exact ih (vadStep s a) (vadInv_step s a h)

/-! ## Claim C9 — deduplicating a repeated chunk -/

lemma commonPrefixLen_self (ws : List Word) :
    commonPrefixLen ws ws = ws.length := by
  induction ws with
  | nil => rfl
  | cons a as ih => simp [commonPrefixLen, ih]

lemma lastTwo_concat (rs : List String) (t : String) :
    lastTwo (rs ++ [t]) =
      (match rs.getLast? with
       | none => [t]
       | some r => [r, t]) := by
  have hgl : rs.getLast? = rs.reverse.head? := (List.head?_reverse rs).symm
  cases hrev : rs.reverse with
  | nil =>
    rw [hrev] at hgl
    simp [lastTwo, List.reverse_append, hrev, hgl]
  | cons a l =>
    rw [hrev] at hgl
    simp [lastTwo, List.reverse_append, hrev, hgl]

/-- C9 counterexample: the chunk "a b c d e x" equals its immediately
preceding accepted chunk, yet deduplication returns "x", not "" — the
second-to-last transcript "a b c d e" is compared first, covers 5 of 6
words (> 80%), and only that prefix is dropped. -/
theorem c9_counterexample :
    ["a b c d e", "a b c d e x"].getLast? = some "a b c d e x" ∧
    (deduplicate ["a b c d e", "a b c d e x"] "a b c d e x").map Prod.fst
      = some "x" ∧
    some "x" ≠ (some "" : Option String) := by
  refine ⟨by decide, by decide, by decide⟩

/-- C9 (amended): a chunk with at least one word that equals its
immediately preceding accepted chunk deduplicates to the empty string
provided the second-to-last recent transcript (when present) does not
already share a lowercased common word prefix covering more than 80% of
the chunk; in that excluded case only the shorter prefix is dropped and
the result can be non-empty. -/
theorem c9_dedup_self (text : String) (rs : List String)
    (hn : 1 ≤ (splitWs (pyLower text.data)).length)
    (hwin : ∀ r, rs.getLast? = some r →
      5 * commonPrefixLen (splitWs (pyLower text.data))
          (splitWs (pyLower r.data))
        ≤ 4 * (splitWs (pyLower text.data)).length) :
    (deduplicate (rs ++ [text]) text).map Prod.fst = some "" := by
  have hne : rs ++ [text] ≠ [] := by simp
  have hloop : dedupLoop (lastTwo (rs ++ [text]))
      (splitWs (pyLower text.data)) = [] := by
    rw [lastTwo_concat]
    cases hlast : rs.getLast? with
    | none =>
      show dedupLoop [text] (splitWs (pyLower text.data)) = []
      simp only [dedupLoop, commonPrefixLen_self]
      rw [if_pos (by omega), List.drop_length]
    | some r =>
      show dedupLoop [r, text] (splitWs (pyLower text.data)) = []
      have hr := hwin r hlast
      simp only [dedupLoop, commonPrefixLen_self]
      rw [if_neg (by omega), if_pos (by omega), List.drop_length]
  unfold deduplicate
  rw [if_neg hne, if_neg (by omega :
    ¬ (splitWs (pyLower text.data)).length = 0)]
  rw [hloop]
  rfl

/-- C9 witness: a chunk repeated right after itself, with no earlier
transcript in the window. -/
theorem c9_witness :
    (deduplicate ["hello world"] "hello world").map Prod.fst = some "" :=
  c9_dedup_self "hello world" [] (by decide) (fun r h => nomatch h)

/-! ## Claim C5 — spurious STATE_CHANGED events -/

/-- The fused score of the quick-turn scenario exceeds the threshold. -/
lemma quick_final_high : specFinalScore quickTurnCtx 3 1200 > 65 := by
  have h80 : calculate_silence_score 1200 = 80 := by
    norm_num [calculate_silence_score, config.short_pause_ms,
      config.medium_pause_ms, config.long_pause_ms]
  have h100 : calculate_linguistic_score quickTurnCtx.transcript_segments
      = 100 := by decide
  have h30 : calculate_context_score quickTurnCtx 3 = 30 := by
    norm_num [calculate_context_score, get_user_speaking_duration, quickTurnCtx,
      min_def, max_def]
  rw [← specFinalScore_unfold, h80, h100, h30]
  norm_num [config.silence_weight, config.linguistic_weight,
    config.context_weight]

/-- When the TURN_ENDED handler runs with the state already
AGENT_THINKING (as the turn detector leaves it), the first event it
emits is a STATE_CHANGED whose old and new states are both
AGENT_THINKING. -/
lemma on_turn_ended_head (ctx : ConversationContext) (transcript llm : String)
    (tts : Option ℕ) (now : ℚ)
    (h1 : ctx.state = ConversationState.AGENT_THINKING) (h2 : transcript ≠ "") :
    (on_turn_ended ctx transcript llm tts now).2.head?
      = some (Ev.stateChanged ConversationState.AGENT_THINKING
          ConversationState.AGENT_THINKING) := by
  unfold on_turn_ended
  rw [if_neg h2]
  unfold generate_and_play_response
  simp only [update_state, h1]
  by_cases hl : llm = ""
  · simp [hl]
  · simp only [if_neg hl]
    cases tts <;> simp

/-- C5 counterexample: the composed execution — quick-turn silence
evaluation, then the response coordinator handling TURN_ENDED — emits a
STATE_CHANGED event with old = new = AGENT_THINKING, so a spurious
STATE_CHANGED does occur. -/
theorem c5_counterexample :
    Ev.stateChanged ConversationState.AGENT_THINKING
        ConversationState.AGENT_THINKING ∈ turnEndRunEvents ∧
    turnEndRunEvents.any isSpuriousStateChange = true := by
  have hstate : (on_silence_detected quickTurnCtx 3 1200).1.state
      = ConversationState.AGENT_THINKING := by
    rw [on_silence_user_high quickTurnCtx 3 1200 rfl quick_final_high]
  have ht : get_user_transcript_current_turn quickTurnCtx.transcript_segments
      ≠ "" := by decide
  have hhead := on_turn_ended_head ((on_silence_detected quickTurnCtx 3 1200).1)
    (get_user_transcript_current_turn quickTurnCtx.transcript_segments)
    "It is noon." (some 16000) 4 hstate ht
  have hmem : Ev.stateChanged ConversationState.AGENT_THINKING
      ConversationState.AGENT_THINKING
      ∈ (on_turn_ended ((on_silence_detected quickTurnCtx 3 1200).1)
          (get_user_transcript_current_turn quickTurnCtx.transcript_segments)
          "It is noon." (some 16000) 4).2 :=
    List.mem_of_mem_head? (Option.mem_def.mpr hhead)
  constructor
  · exact List.mem_append_right _ hmem
  · exact List.any_eq_true.mpr
      ⟨_, List.mem_append_right _ hmem, by decide⟩

/-- C5 (amended): `update_state` emits STATE_CHANGED unconditionally,
even when old = new; in particular, whenever the TURN_ENDED handler runs
with the conversation already in AGENT_THINKING (which is how the turn
detector leaves it) and a non-empty transcript, the first event of the
response flow is STATE_CHANGED with old = new = AGENT_THINKING. -/
theorem c5_spurious_state_changed (ctx : ConversationContext)
    (transcript llm : String) (tts : Option ℕ) (now : ℚ)
    (h1 : ctx.state = ConversationState.AGENT_THINKING)
    (h2 : transcript ≠ "") :
    (update_state ctx ctx.state).2 = Ev.stateChanged ctx.state ctx.state ∧
    (on_turn_ended ctx transcript llm tts now).2.head?
      = some (Ev.stateChanged ConversationState.AGENT_THINKING
          ConversationState.AGENT_THINKING) :=
  ⟨rfl, on_turn_ended_head ctx transcript llm tts now h1 h2⟩

/-- C5 witness: the concrete AGENT_THINKING context left by the quick
turn. -/
theorem c5_witness :
    (update_state thinkingCtx thinkingCtx.state).2
      = Ev.stateChanged thinkingCtx.state thinkingCtx.state ∧
    (on_turn_ended thinkingCtx "What time is it?" "It is noon." (some 16000)
        4).2.head?
      = some (Ev.stateChanged ConversationState.AGENT_THINKING
          ConversationState.AGENT_THINKING) :=
  c5_spurious_state_changed thinkingCtx "What time is it?" "It is noon."
    (some 16000) 4 rfl (by decide)
